import Mathlib

/-!
# Verification of `olgm.herald.Layers` (src/src/herald/layersherald.js)

A shallow embedding of the Layers Herald: the component that watches the
OpenLayers map's layer collection, keeps the parallel `googleLayers_` /
`googleCache_` and `vectorLayers_` / `vectorCache_` structures, and drives
the two-state activation protocol that swaps the Google Maps map into the
OpenLayers map's target element.

Layers are identified by natural numbers.  Immutable per-layer data (the
concrete class of the layer, its map type id, its `getStyles()` result, and
whether it has a source) lives in a `LayerEnv`; everything the herald or the
user mutates lives in `HeraldState`.  Every observable side effect performed
by the herald (DOM mutations, view-herald calls, synchronizer calls, opacity
writes, flag assignments) is additionally recorded in an append-only `log`
field, so ordering properties of the routines can be stated.
-/

namespace LayersHerald

/-- The concrete kind of a layer: `olgm.layer.Google`, `ol.layer.Vector`,
or any other (unsupported) layer class. -/
inductive LayerKind where
  | google
  | vector
  | other
deriving DecidableEq, Repr

/-- The two DOM elements the herald moves around: `ol3mapEl_` (the OpenLayers
viewport) and `gmapEl_` (the Google Maps div). -/
inductive Elem where
  | ol3mapEl
  | gmapEl
deriving DecidableEq, Repr

/-- The CSS `position` style of `ol3mapEl_`: either untouched or the
`'relative'` value written by `deactivateGoogleMaps_`. -/
inductive PosStyle where
  | unset
  | relative
deriving DecidableEq, Repr

/-- Immutable per-layer data and the herald's `watchVector_` constructor
flag.  `kind` models the `instanceof` checks, `mapTypeId` models
`layer.getMapTypeId()`, `styles` models `layer.getStyles()` (possibly null),
`derivedStyle` models the pure style deriver `olgm.gm.createStyle(layer)`,
and `hasSource` models `layer.getSource()` being non-null. -/
structure LayerEnv where
  kind : Nat → LayerKind
  mapTypeId : Nat → Nat
  styles : Nat → Option Nat
  derivedStyle : Nat → Option Nat
  hasSource : Nat → Bool
  watchVector : Bool

/-- One entry of `googleCache_`: the layer and its listener keys. -/
structure GoogleCacheItem where
  layer : Nat
  listenerKeys : List Nat
deriving DecidableEq, Repr

/-- One entry of `vectorCache_`: the `google.maps.Data` overlay handle, the
`olgm.herald.VectorSource` synchronizer id, the layer, its listener keys and
the opacity captured at watch time. -/
structure VectorCacheItem where
  data : Nat
  herald : Nat
  layer : Nat
  listenerKeys : List Nat
  opacity : ℚ
deriving DecidableEq, Repr

/-- An observable side effect performed by the herald, recorded in the log. -/
inductive Action where
  | removeChildTarget (e : Elem)
  | appendChildTarget (e : Elem)
  | pushControl (e : Elem)
  | removeControlAt (i : Nat)
  | viewHeraldActivate
  | viewHeraldDeactivate
  | viewHeraldSetCenter
  | viewHeraldSetZoom
  | triggerResize
  | setPositionStyle (v : PosStyle)
  | markActive (b : Bool)
  | vsActivate (sync : Nat)
  | vsDeactivate (sync : Nat)
  | setLayerOpacity (layer : Nat) (q : ℚ)
  | setMapTypeId (t : Nat)
  | setStyles (st : Option Nat)
  | dataSetMap (handle : Nat) (attached : Bool)
deriving DecidableEq, Repr

/-- The whole mutable state: the map's layer collection and per-layer mutable
attributes, every private field of `olgm.herald.Layers`, the observable state
of the Google map / DOM / view herald / per-layer synchronizers, allocation
counters for fresh handles, and the effect log. -/
structure HeraldState where
  /- the OpenLayers map's layer collection, bottom to top -/
  mapLayers : List Nat
  visible : Nat → Bool
  opacity : Nat → ℚ
  /- herald fields -/
  googleLayers : List Nat
  googleCache : List GoogleCacheItem
  vectorLayers : List Nat
  vectorCache : List VectorCacheItem
  googleMapsIsActive : Bool
  ol3mapIsRenderered : Bool
  /- the one-shot listeners registered by the constructor -/
  waitingCenter : Bool
  waitingPostrender : Bool
  centerDefined : Bool
  /- google map -/
  gmapMapTypeId : Option Nat
  gmapStyles : Option (Option Nat)
  gmapControlsTopLeft : List Elem
  overlaysOnMap : List Nat
  dataStyle : Nat → Option Nat
  /- DOM -/
  targetChildren : List Elem
  ol3PositionStyle : PosStyle
  /- view herald -/
  viewHeraldActive : Bool
  resizeCount : Nat
  setCenterCount : Nat
  setZoomCount : Nat
  /- per-vector-layer synchronizers -/
  syncActive : Nat → Bool
  activeKeys : List Nat
  /- allocators for listener keys, Data handles and synchronizer ids -/
  nextKey : Nat
  nextData : Nat
  nextSync : Nat
  /- effect log -/
  log : List Action

/-- `getGoogleMapsActive()`. -/
def getGoogleMapsActive (s : HeraldState) : Bool :=
  s.googleMapsIsActive

/-- `activateVectorLayerCacheItem_(cacheItem)`: if the layer is visible and
Google Maps is active, activate the entry's herald and render the layer
fully transparent; otherwise do nothing. -/
def activateVectorLayerCacheItem (it : VectorCacheItem) (s : HeraldState) :
    HeraldState :=
  if s.visible it.layer && s.googleMapsIsActive then
    { s with
      syncActive := Function.update s.syncActive it.herald true,
      opacity := Function.update s.opacity it.layer 0,
      log := s.log ++ [Action.vsActivate it.herald,
                       Action.setLayerOpacity it.layer 0] }
  else s

/-- `deactivateVectorLayerCacheItem_(cacheItem)`: unconditionally deactivate
the entry's herald and restore the layer's opacity. -/
def deactivateVectorLayerCacheItem (it : VectorCacheItem) (s : HeraldState) :
    HeraldState :=
  { s with
    syncActive := Function.update s.syncActive it.herald false,
    opacity := Function.update s.opacity it.layer it.opacity,
    log := s.log ++ [Action.vsDeactivate it.herald,
                     Action.setLayerOpacity it.layer it.opacity] }

/-- `activateGoogleMaps_()`.  The straight-line statement sequence before the
final `forEach` (lines 367-383 of the source) only writes pairwise-distinct
locations, so it is modelled as one simultaneous update; the statement order
is recorded in the log. -/
def activateGoogleMaps (s : HeraldState) : HeraldState :=
  if s.googleMapsIsActive || !s.ol3mapIsRenderered || !s.centerDefined then
    s
  else
    s.vectorCache.foldl (fun acc it => activateVectorLayerCacheItem it acc)
      { s with
        targetChildren := s.targetChildren.erase Elem.ol3mapEl ++ [Elem.gmapEl],
        gmapControlsTopLeft := s.gmapControlsTopLeft ++ [Elem.ol3mapEl],
        viewHeraldActive := true,
        resizeCount := s.resizeCount + 1,
        setCenterCount := s.setCenterCount + 1,
        setZoomCount := s.setZoomCount + 1,
        googleMapsIsActive := true,
        log := s.log ++ [Action.removeChildTarget Elem.ol3mapEl,
                         Action.appendChildTarget Elem.gmapEl,
                         Action.pushControl Elem.ol3mapEl,
                         Action.viewHeraldActivate,
                         Action.triggerResize,
                         Action.viewHeraldSetCenter,
                         Action.viewHeraldSetZoom,
                         Action.markActive true] }

/-- The final statement of `deactivateGoogleMaps_` (line 412):
`this.googleMapsIsActive_ = false;`. -/
def setInactiveFlag (x : HeraldState) : HeraldState :=
  { x with
    googleMapsIsActive := false,
    log := x.log ++ [Action.markActive false] }

/-- `deactivateGoogleMaps_()`.  Note the source order: the cache items are
deactivated (line 410) before `googleMapsIsActive_` is set to `false`
(line 412). -/
def deactivateGoogleMaps (s : HeraldState) : HeraldState :=
  if !s.googleMapsIsActive then
    s
  else
    setInactiveFlag
      (s.vectorCache.foldl (fun acc it => deactivateVectorLayerCacheItem it acc)
        { s with
          gmapControlsTopLeft := s.gmapControlsTopLeft.eraseIdx 0,
          targetChildren := s.targetChildren.erase Elem.gmapEl ++ [Elem.ol3mapEl],
          viewHeraldActive := false,
          ol3PositionStyle := PosStyle.relative,
          log := s.log ++ [Action.removeControlAt 0,
                           Action.removeChildTarget Elem.gmapEl,
                           Action.appendChildTarget Elem.ol3mapEl,
                           Action.viewHeraldDeactivate,
                           Action.setPositionStyle PosStyle.relative] })

/-- The predicate tested by the `every` callback in `toggleGoogleMaps_`:
`layer instanceof olgm.layer.Google && layer.getVisible() &&
this.googleLayers_.indexOf(layer) !== -1`. -/
def winnerPred (env : LayerEnv) (s : HeraldState) (l : Nat) : Bool :=
  env.kind l == LayerKind.google && s.visible l && s.googleLayers.contains l

/-- The `found` layer of `toggleGoogleMaps_`: the collection is copied,
reversed (top first), and scanned for the first layer satisfying
`winnerPred`. -/
def toggleWinner (env : LayerEnv) (s : HeraldState) : Option Nat :=
  s.mapLayers.reverse.find? (winnerPred env s)

/-- `toggleGoogleMaps_()`. -/
def toggleGoogleMaps (env : LayerEnv) (s : HeraldState) : HeraldState :=
  match toggleWinner env s with
  | some found =>
    let s1 :=
      match env.styles found with
      | some st => { s with
          gmapMapTypeId := some (env.mapTypeId found),
          gmapStyles := some (some st),
          log := s.log ++ [Action.setMapTypeId (env.mapTypeId found),
                           Action.setStyles (some st)] }
      | none => { s with
          gmapMapTypeId := some (env.mapTypeId found),
          gmapStyles := some none,
          log := s.log ++ [Action.setMapTypeId (env.mapTypeId found),
                           Action.setStyles none] }
    activateGoogleMaps s1
  | none => deactivateGoogleMaps s

/-- `watchGoogleLayer_(layer)`. -/
def watchGoogleLayer (env : LayerEnv) (l : Nat) (s : HeraldState) :
    HeraldState :=
  toggleGoogleMaps env { s with
    googleLayers := s.googleLayers ++ [l],
    googleCache := s.googleCache ++ [⟨l, [s.nextKey]⟩],
    activeKeys := s.activeKeys ++ [s.nextKey],
    nextKey := s.nextKey + 1 }

/-- `watchVectorLayer_(layer)`. -/
def watchVectorLayer (env : LayerEnv) (l : Nat) (s : HeraldState) :
    HeraldState :=
  if !env.hasSource l then
    s
  else
    let it : VectorCacheItem :=
      ⟨s.nextData, s.nextSync, l, [s.nextKey], s.opacity l⟩
    let s1 := { s with
      vectorLayers := s.vectorLayers ++ [l],
      overlaysOnMap := s.overlaysOnMap ++ [s.nextData],
      dataStyle :=
        match env.derivedStyle l with
        | some st => Function.update s.dataStyle s.nextData (some st)
        | none => s.dataStyle,
      nextData := s.nextData + 1,
      nextSync := s.nextSync + 1,
      activeKeys := s.activeKeys ++ [s.nextKey],
      nextKey := s.nextKey + 1 }
    let s2 := activateVectorLayerCacheItem it s1
    { s2 with vectorCache := s2.vectorCache ++ [it] }

/-- `unwatchGoogleLayer_(layer)`.  When the parallel structures are
misaligned the source would fault on `cacheItem.listenerKeys`; that branch is
unreachable from well-formed states and is modelled as a no-op. -/
def unwatchGoogleLayer (env : LayerEnv) (l : Nat) (s : HeraldState) :
    HeraldState :=
  match s.googleLayers.findIdx? (· == l) with
  | none => s
  | some i =>
    match s.googleCache[i]? with
    | none => { s with googleLayers := s.googleLayers.eraseIdx i }
    | some it =>
      toggleGoogleMaps env { s with
        googleLayers := s.googleLayers.eraseIdx i,
        activeKeys := s.activeKeys.filter (fun k => !it.listenerKeys.contains k),
        googleCache := s.googleCache.eraseIdx i }

/-- `unwatchVectorLayer_(layer)`. -/
def unwatchVectorLayer (l : Nat) (s : HeraldState) : HeraldState :=
  match s.vectorLayers.findIdx? (· == l) with
  | none => s
  | some i =>
    match s.vectorCache[i]? with
    | none => { s with vectorLayers := s.vectorLayers.eraseIdx i }
    | some it =>
      { s with
        vectorLayers := s.vectorLayers.eraseIdx i,
        activeKeys := s.activeKeys.filter (fun k => !it.listenerKeys.contains k),
        overlaysOnMap := s.overlaysOnMap.erase it.data,
        syncActive := Function.update s.syncActive it.herald false,
        opacity := Function.update s.opacity l it.opacity,
        vectorCache := s.vectorCache.eraseIdx i,
        log := s.log ++ [Action.dataSetMap it.data false,
                         Action.vsDeactivate it.herald,
                         Action.setLayerOpacity l it.opacity] }

/-- `watchLayer_(layer)`: the classifier. -/
def watchLayer (env : LayerEnv) (l : Nat) (s : HeraldState) : HeraldState :=
  if env.kind l = LayerKind.google then
    watchGoogleLayer env l s
  else if env.kind l = LayerKind.vector ∧ env.watchVector then
    watchVectorLayer env l s
  else s

/-- `unwatchLayer_(layer)`. -/
def unwatchLayer (env : LayerEnv) (l : Nat) (s : HeraldState) : HeraldState :=
  if env.kind l = LayerKind.google then
    unwatchGoogleLayer env l s
  else if env.kind l = LayerKind.vector ∧ env.watchVector then
    unwatchVectorLayer l s
  else s

/-- `handleVectorLayerVisibleChange_(cacheItem)`. -/
def handleVectorLayerVisibleChange (it : VectorCacheItem) (s : HeraldState) :
    HeraldState :=
  if s.visible it.layer then
    activateVectorLayerCacheItem it s
  else
    deactivateVectorLayerCacheItem it s

/-- External events the herald reacts to: collection add/remove (which the
subscribed `handleLayersAdd_` / `handleLayersRemove_` turn into watch /
unwatch), a layer visibility change (dispatched to the `change:visible`
listeners registered by the two watch routines), the view's first
`change:center`, and the map's `postrender`. -/
inductive Ev where
  | addLayer (l : Nat)
  | removeLayer (l : Nat)
  | setVisible (l : Nat) (b : Bool)
  | centerEvent
  | postrenderEvent
deriving DecidableEq, Repr

/-- One event step.  `setVisible` runs `toggleGoogleMaps_` once per google
cache entry subscribed to the layer and the bound
`handleVectorLayerVisibleChange_` once per vector cache entry of the layer;
`centerEvent`/`postrenderEvent` model the one-shot listeners registered by
the constructor (the `postrender` listener is only registered inside the
`change:center` handler when the view starts without a center). -/
def step (env : LayerEnv) (s : HeraldState) : Ev → HeraldState
  | Ev.addLayer l =>
    watchLayer env l { s with mapLayers := s.mapLayers ++ [l] }
  | Ev.removeLayer l =>
    if s.mapLayers.contains l then
      unwatchLayer env l { s with mapLayers := s.mapLayers.erase l }
    else s
  | Ev.setVisible l b =>
    let s1 := { s with visible := Function.update s.visible l b }
    let s2 := (s1.googleCache.filter (fun it => it.layer == l)).foldl
      (fun acc _ => toggleGoogleMaps env acc) s1
    (s1.vectorCache.filter (fun it => it.layer == l)).foldl
      (fun acc it => handleVectorLayerVisibleChange it acc) s2
  | Ev.centerEvent =>
    if s.waitingCenter then
      toggleGoogleMaps env
        { s with centerDefined := true, waitingCenter := false,
                 waitingPostrender := true }
    else { s with centerDefined := true }
  | Ev.postrenderEvent =>
    if s.waitingPostrender then
      toggleGoogleMaps env
        { s with waitingPostrender := false, ol3mapIsRenderered := true }
    else s

/-- Run a list of events. -/
def run (env : LayerEnv) (s : HeraldState) (evs : List Ev) : HeraldState :=
  evs.foldl (step env) s

/-- The state built by the constructor: empty caches, inactive, not yet
rendered; when the view has no center yet, the constructor waits for
`change:center` (and only then registers the `postrender` listener),
otherwise it waits for `postrender` directly. -/
def mkInitial (mapLayers₀ : List Nat) (visible₀ : Nat → Bool)
    (opacity₀ : Nat → ℚ) (centerDefined₀ : Bool) : HeraldState where
  mapLayers := mapLayers₀
  visible := visible₀
  opacity := opacity₀
  googleLayers := []
  googleCache := []
  vectorLayers := []
  vectorCache := []
  googleMapsIsActive := false
  ol3mapIsRenderered := false
  waitingCenter := !centerDefined₀
  waitingPostrender := centerDefined₀
  centerDefined := centerDefined₀
  gmapMapTypeId := none
  gmapStyles := none
  gmapControlsTopLeft := []
  overlaysOnMap := []
  dataStyle := fun _ => none
  targetChildren := [Elem.ol3mapEl]
  ol3PositionStyle := PosStyle.unset
  viewHeraldActive := false
  resizeCount := 0
  setCenterCount := 0
  setZoomCount := 0
  syncActive := fun _ => false
  activeKeys := []
  nextKey := 0
  nextData := 0
  nextSync := 0
  log := []

/-- The state with the (ghost) effect log erased: two states that agree on
`eraseLog` are observably identical, the log only records the order in which
effects happened. -/
def eraseLog (s : HeraldState) : HeraldState :=
  { s with log := [] }

/-- The fields no herald routine other than watch/unwatch mutates: the layer
collection, per-layer visibility, the two caches and their parallel lists,
and the render/center gate flags.  `Frame t s` says `t` agrees with `s` on
all of them. -/
structure Frame (t s : HeraldState) : Prop where
  mapLayers : t.mapLayers = s.mapLayers
  visible : t.visible = s.visible
  googleLayers : t.googleLayers = s.googleLayers
  googleCache : t.googleCache = s.googleCache
  vectorLayers : t.vectorLayers = s.vectorLayers
  vectorCache : t.vectorCache = s.vectorCache
  rendered : t.ol3mapIsRenderered = s.ol3mapIsRenderered
  center : t.centerDefined = s.centerDefined
  waitC : t.waitingCenter = s.waitingCenter
  waitP : t.waitingPostrender = s.waitingPostrender

/-- Both caches stay index-aligned with their parallel layer lists. -/
def CacheAligned (s : HeraldState) : Prop :=
  s.googleCache.map GoogleCacheItem.layer = s.googleLayers ∧
  s.vectorCache.map VectorCacheItem.layer = s.vectorLayers

/-- Every tracked layer has the kind of its cache. -/
def KindSorted (env : LayerEnv) (s : HeraldState) : Prop :=
  (∀ l ∈ s.googleLayers, env.kind l = LayerKind.google) ∧
  (∀ l ∈ s.vectorLayers, env.kind l = LayerKind.vector)

/-- The render flag can only be set after a center exists, and the pending
`postrender` listener is only armed once a center exists. -/
def GateInv (s : HeraldState) : Prop :=
  (s.waitingPostrender = true → s.centerDefined = true) ∧
  (s.ol3mapIsRenderered = true → s.centerDefined = true)

/-- Whenever the render and center preconditions hold and a winning layer is
present, Google Maps is active: a failed activation has been retried. -/
def RetryInv (env : LayerEnv) (s : HeraldState) : Prop :=
  s.ol3mapIsRenderered = true → s.centerDefined = true →
  (∃ l ∈ s.mapLayers, winnerPred env s l = true) →
  s.googleMapsIsActive = true

/-- The inductive invariant of the event system. -/
def Inv (env : LayerEnv) (s : HeraldState) : Prop :=
  CacheAligned s ∧ KindSorted env s ∧ GateInv s ∧ RetryInv env s

/-- A concrete environment for scenario instances: layers 0 and 1 are
`olgm.layer.Google` (map type ids 10 and 11, layer 1 with a style set),
every other layer is an `ol.layer.Vector` with a source. -/
def cEnv : LayerEnv where
  kind := fun l => if l ≤ 1 then LayerKind.google else LayerKind.vector
  mapTypeId := fun l => 10 + l
  styles := fun l => if l = 1 then some 99 else none
  derivedStyle := fun _ => none
  hasSource := fun _ => true
  watchVector := true

/-- A concrete freshly-constructed herald over a view with no center yet. -/
def cInit : HeraldState := mkInitial [] (fun _ => true) (fun _ => mkRat 4 5) false

/-- A concrete freshly-constructed herald over a view that already has a
center. -/
def cInitC : HeraldState := mkInitial [] (fun _ => true) (fun _ => mkRat 4 5) true

/-- Active herald with two visible watched google layers 0 (bottom) and 1
(top). -/
def cTwoGoogle : HeraldState :=
  run cEnv cInitC [Ev.postrenderEvent, Ev.addLayer 0, Ev.addLayer 1]

/-- Active herald with google layer 0 and watched vector layer 2. -/
def cWithVector : HeraldState :=
  run cEnv cInitC [Ev.postrenderEvent, Ev.addLayer 0, Ev.addLayer 2]

theorem frame_refl (s : HeraldState) : Frame s s :=
  ⟨rfl, rfl, rfl, rfl, rfl, rfl, rfl, rfl, rfl, rfl⟩

theorem frame_trans {u t s : HeraldState} (h1 : Frame u t) (h2 : Frame t s) :
    Frame u s :=
  ⟨h1.mapLayers.trans h2.mapLayers, h1.visible.trans h2.visible,
   h1.googleLayers.trans h2.googleLayers, h1.googleCache.trans h2.googleCache,
   h1.vectorLayers.trans h2.vectorLayers, h1.vectorCache.trans h2.vectorCache,
   h1.rendered.trans h2.rendered, h1.center.trans h2.center,
   h1.waitC.trans h2.waitC, h1.waitP.trans h2.waitP⟩

theorem frame_activateVectorLayerCacheItem (it : VectorCacheItem)
    (s : HeraldState) : Frame (activateVectorLayerCacheItem it s) s := by
  unfold activateVectorLayerCacheItem
  split
  · exact ⟨rfl, rfl, rfl, rfl, rfl, rfl, rfl, rfl, rfl, rfl⟩
  · exact frame_refl _

theorem activateVectorLayerCacheItem_active (it : VectorCacheItem)
    (s : HeraldState) :
    (activateVectorLayerCacheItem it s).googleMapsIsActive =
      s.googleMapsIsActive := by
  unfold activateVectorLayerCacheItem
  split <;> rfl

theorem frame_deactivateVectorLayerCacheItem (it : VectorCacheItem)
    (s : HeraldState) : Frame (deactivateVectorLayerCacheItem it s) s :=
  ⟨rfl, rfl, rfl, rfl, rfl, rfl, rfl, rfl, rfl, rfl⟩

theorem deactivateVectorLayerCacheItem_active (it : VectorCacheItem)
    (s : HeraldState) :
    (deactivateVectorLayerCacheItem it s).googleMapsIsActive =
      s.googleMapsIsActive := rfl

theorem frame_handleVectorLayerVisibleChange (it : VectorCacheItem)
    (s : HeraldState) : Frame (handleVectorLayerVisibleChange it s) s := by
  unfold handleVectorLayerVisibleChange
  split
  · exact frame_activateVectorLayerCacheItem it s
  · exact frame_deactivateVectorLayerCacheItem it s

theorem handleVectorLayerVisibleChange_active (it : VectorCacheItem)
    (s : HeraldState) :
    (handleVectorLayerVisibleChange it s).googleMapsIsActive =
      s.googleMapsIsActive := by
  unfold handleVectorLayerVisibleChange
  split
  · exact activateVectorLayerCacheItem_active it s
  · rfl

theorem frame_foldl {α : Type} (g : α → HeraldState → HeraldState)
    (hg : ∀ a x, Frame (g a x) x) (l : List α) (s : HeraldState) :
    Frame (l.foldl (fun acc a => g a acc) s) s := by
  induction l generalizing s with
  | nil => exact frame_refl s
  | cons a l ih => exact frame_trans (ih (g a s)) (hg a s)

theorem foldl_active {α : Type} (g : α → HeraldState → HeraldState)
    (hg : ∀ a x, (g a x).googleMapsIsActive = x.googleMapsIsActive)
    (l : List α) (s : HeraldState) :
    (l.foldl (fun acc a => g a acc) s).googleMapsIsActive =
      s.googleMapsIsActive := by
  induction l generalizing s with
  | nil => rfl
  | cons a l ih => exact (ih (g a s)).trans (hg a s)

theorem frame_activateGoogleMaps (s : HeraldState) :
    Frame (activateGoogleMaps s) s := by
  unfold activateGoogleMaps
  split
  · exact frame_refl s
  · exact frame_trans
      (frame_foldl _ frame_activateVectorLayerCacheItem _ _)
      ⟨rfl, rfl, rfl, rfl, rfl, rfl, rfl, rfl, rfl, rfl⟩

theorem activateGoogleMaps_active (s : HeraldState) :
    (activateGoogleMaps s).googleMapsIsActive =
      (s.googleMapsIsActive || (s.ol3mapIsRenderered && s.centerDefined)) := by
  unfold activateGoogleMaps
  split
  · next h =>
    revert h
    cases hb : s.googleMapsIsActive <;>
      cases hr : s.ol3mapIsRenderered <;>
        cases hc : s.centerDefined <;> simp
  · next h =>
    rw [foldl_active _ activateVectorLayerCacheItem_active]
    revert h
    cases hb : s.googleMapsIsActive <;>
      cases hr : s.ol3mapIsRenderered <;>
        cases hc : s.centerDefined <;> simp

theorem activateGoogleMaps_of_active {s : HeraldState}
    (h : s.googleMapsIsActive = true) : activateGoogleMaps s = s := by
  unfold activateGoogleMaps
  rw [if_pos]
  simp [h]

theorem activateGoogleMaps_of_not_ready {s : HeraldState}
    (h : s.ol3mapIsRenderered = false ∨ s.centerDefined = false) :
    activateGoogleMaps s = s := by
  unfold activateGoogleMaps
  rw [if_pos]
  rcases h with h | h <;> simp [h]

theorem frame_setInactiveFlag (s : HeraldState) :
    Frame (setInactiveFlag s) s :=
  ⟨rfl, rfl, rfl, rfl, rfl, rfl, rfl, rfl, rfl, rfl⟩

theorem frame_deactivateGoogleMaps (s : HeraldState) :
    Frame (deactivateGoogleMaps s) s := by
  unfold deactivateGoogleMaps
  split
  · exact frame_refl s
  · exact frame_trans (frame_setInactiveFlag _)
      (frame_trans (frame_foldl _ frame_deactivateVectorLayerCacheItem _ _)
        ⟨rfl, rfl, rfl, rfl, rfl, rfl, rfl, rfl, rfl, rfl⟩)

theorem deactivateGoogleMaps_active (s : HeraldState) :
    (deactivateGoogleMaps s).googleMapsIsActive = false := by
  unfold deactivateGoogleMaps
  split
  · next h => simpa using h
  · rfl

theorem deactivateGoogleMaps_of_inactive {s : HeraldState}
    (h : s.googleMapsIsActive = false) : deactivateGoogleMaps s = s := by
  unfold deactivateGoogleMaps
  rw [if_pos]
  simp [h]

/-- The `gmap.setMapTypeId` / `gmap.setOptions` observables, bundled. -/
def gmapOptions (x : HeraldState) : Option Nat × Option (Option Nat) :=
  (x.gmapMapTypeId, x.gmapStyles)

/-- Recognizes a per-entry synchronizer deactivation in the log. -/
def isVsDeactivate : Action → Bool
  | Action.vsDeactivate _ => true
  | _ => false

theorem foldl_pres {α : Type} {β : Type} (proj : HeraldState → β)
    (g : α → HeraldState → HeraldState)
    (hg : ∀ a x, proj (g a x) = proj x) (l : List α) (s : HeraldState) :
    proj (l.foldl (fun acc a => g a acc) s) = proj s := by
  induction l generalizing s with
  | nil => rfl
  | cons a l ih => exact (ih (g a s)).trans (hg a s)

theorem activateVectorLayerCacheItem_gmapOptions (it : VectorCacheItem)
    (s : HeraldState) :
    gmapOptions (activateVectorLayerCacheItem it s) = gmapOptions s := by
  unfold activateVectorLayerCacheItem
  split <;> rfl

theorem activateGoogleMaps_gmapOptions (s : HeraldState) :
    gmapOptions (activateGoogleMaps s) = gmapOptions s := by
  unfold activateGoogleMaps
  split
  · rfl
  · exact (foldl_pres gmapOptions _ activateVectorLayerCacheItem_gmapOptions
      _ _).trans rfl

theorem winnerPred_frame {env : LayerEnv} {t s : HeraldState} (h : Frame t s) :
    winnerPred env t = winnerPred env s := by
  funext l
  unfold winnerPred
  rw [h.visible, h.googleLayers]

theorem toggleWinner_frame {env : LayerEnv} {t s : HeraldState}
    (h : Frame t s) : toggleWinner env t = toggleWinner env s := by
  unfold toggleWinner
  rw [h.mapLayers, winnerPred_frame h]

theorem toggleWinner_isSome_iff (env : LayerEnv) (s : HeraldState) :
    (toggleWinner env s).isSome = true ↔
      ∃ l ∈ s.mapLayers, winnerPred env s l = true := by
  unfold toggleWinner
  rw [List.find?_isSome]
  simp [List.mem_reverse]

theorem toggleGoogleMaps_of_winner {env : LayerEnv} {s : HeraldState} {w : Nat}
    (h : toggleWinner env s = some w) :
    toggleGoogleMaps env s = activateGoogleMaps
      { s with
        gmapMapTypeId := some (env.mapTypeId w),
        gmapStyles := some (env.styles w),
        log := s.log ++ [Action.setMapTypeId (env.mapTypeId w),
                         Action.setStyles (env.styles w)] } := by
  simp only [toggleGoogleMaps, h]
  cases hst : env.styles w <;> simp [hst]

theorem toggleGoogleMaps_of_none {env : LayerEnv} {s : HeraldState}
    (h : toggleWinner env s = none) :
    toggleGoogleMaps env s = deactivateGoogleMaps s := by
  simp only [toggleGoogleMaps, h]

theorem frame_toggleGoogleMaps (env : LayerEnv) (s : HeraldState) :
    Frame (toggleGoogleMaps env s) s := by
  cases h : toggleWinner env s with
  | none => rw [toggleGoogleMaps_of_none h]; exact frame_deactivateGoogleMaps s
  | some w =>
    rw [toggleGoogleMaps_of_winner h]
    exact frame_trans (frame_activateGoogleMaps _)
      ⟨rfl, rfl, rfl, rfl, rfl, rfl, rfl, rfl, rfl, rfl⟩

theorem toggleGoogleMaps_params {env : LayerEnv} {s : HeraldState} {w : Nat}
    (h : toggleWinner env s = some w) :
    (toggleGoogleMaps env s).gmapMapTypeId = some (env.mapTypeId w) ∧
      (toggleGoogleMaps env s).gmapStyles = some (env.styles w) := by
  rw [toggleGoogleMaps_of_winner h]
  have := activateGoogleMaps_gmapOptions
    { s with
      gmapMapTypeId := some (env.mapTypeId w),
      gmapStyles := some (env.styles w),
      log := s.log ++ [Action.setMapTypeId (env.mapTypeId w),
                       Action.setStyles (env.styles w)] }
  unfold gmapOptions at this
  exact ⟨congrArg Prod.fst this, congrArg Prod.snd this⟩

theorem toggleGoogleMaps_active_of_winner {env : LayerEnv} {s : HeraldState}
    {w : Nat} (h : toggleWinner env s = some w) :
    (toggleGoogleMaps env s).googleMapsIsActive =
      (s.googleMapsIsActive || (s.ol3mapIsRenderered && s.centerDefined)) := by
  rw [toggleGoogleMaps_of_winner h, activateGoogleMaps_active]

theorem toggleGoogleMaps_establishes (env : LayerEnv) (s : HeraldState) :
    RetryInv env (toggleGoogleMaps env s) := by
  intro hr hc hw
  have F := frame_toggleGoogleMaps env s
  rw [F.mapLayers, winnerPred_frame F] at hw
  have hsome : (toggleWinner env s).isSome = true :=
    (toggleWinner_isSome_iff env s).mpr hw
  obtain ⟨w, hww⟩ := Option.isSome_iff_exists.mp hsome
  rw [toggleGoogleMaps_active_of_winner hww]
  have hr' : s.ol3mapIsRenderered = true := F.rendered ▸ hr
  have hc' : s.centerDefined = true := F.center ▸ hc
  simp [hr', hc']

theorem findIdx?_eq_none_of_not_mem {l : ℕ} {xs : List ℕ} (h : l ∉ xs) :
    xs.findIdx? (· == l) = none := by
  rw [List.findIdx?_eq_none_iff]
  intro x hx
  simp only [beq_eq_false_iff_ne, ne_eq]
  rintro rfl
  exact h hx

theorem unwatchGoogleLayer_not_mem {env : LayerEnv} {l : Nat}
    {s : HeraldState} (h : l ∉ s.googleLayers) :
    unwatchGoogleLayer env l s = s := by
  unfold unwatchGoogleLayer
  rw [findIdx?_eq_none_of_not_mem h]

theorem unwatchVectorLayer_not_mem {l : Nat} {s : HeraldState}
    (h : l ∉ s.vectorLayers) : unwatchVectorLayer l s = s := by
  unfold unwatchVectorLayer
  rw [findIdx?_eq_none_of_not_mem h]

theorem foldl_deactivateItems_log (l : List VectorCacheItem)
    (s : HeraldState) :
    (l.foldl (fun acc it => deactivateVectorLayerCacheItem it acc) s).log =
      s.log ++ l.flatMap (fun it =>
        [Action.vsDeactivate it.herald,
         Action.setLayerOpacity it.layer it.opacity]) := by
  induction l generalizing s with
  | nil => simp
  | cons a l ih =>
    rw [List.foldl_cons, ih]
    simp [deactivateVectorLayerCacheItem, List.append_assoc]

theorem deactivateGoogleMaps_log {s : HeraldState}
    (h : s.googleMapsIsActive = true) :
    (deactivateGoogleMaps s).log = s.log ++
      ([Action.removeControlAt 0,
        Action.removeChildTarget Elem.gmapEl,
        Action.appendChildTarget Elem.ol3mapEl,
        Action.viewHeraldDeactivate,
        Action.setPositionStyle PosStyle.relative] ++
       s.vectorCache.flatMap (fun it =>
         [Action.vsDeactivate it.herald,
          Action.setLayerOpacity it.layer it.opacity]) ++
       [Action.markActive false]) := by
  unfold deactivateGoogleMaps
  rw [if_neg (by simp [h])]
  simp only [setInactiveFlag]
  rw [foldl_deactivateItems_log]
  simp [List.append_assoc]

theorem toggleWinner_eq_some_iff (env : LayerEnv) (s : HeraldState) (w : Nat) :
    toggleWinner env s = some w ↔
      winnerPred env s w = true ∧
      ∃ pre post, s.mapLayers = pre ++ w :: post ∧
        ∀ x ∈ post, winnerPred env s x = false := by
  unfold toggleWinner
  rw [List.find?_eq_some]
  constructor
  · rintro ⟨hp, as, bs, hrev, hall⟩
    refine ⟨hp, bs.reverse, as.reverse, ?_, ?_⟩
    · have h2 : s.mapLayers = s.mapLayers.reverse.reverse :=
        (List.reverse_reverse _).symm
      rw [h2, hrev]
      simp [List.reverse_append, List.reverse_cons, List.append_assoc]
    · intro x hx
      have := hall x (List.mem_reverse.mp hx)
      simpa using this
  · rintro ⟨hp, pre, post, hdec, hall⟩
    refine ⟨hp, post.reverse, pre.reverse, ?_, ?_⟩
    · rw [hdec]
      simp [List.reverse_append, List.reverse_cons, List.append_assoc]
    · intro a ha
      have := hall a (List.mem_reverse.mp ha)
      simpa using this

/-- C1: the toggle decision scans the watched collection from top (last) to
bottom (first) and the winner is exactly a layer `w` that satisfies the
google/visible/watched predicate such that every layer stacked above it
fails the predicate; a winner's map-type id and styles (`some st`, or `null`
cleared when it has none) are applied to the Google map and the activation
routine then runs (so the state machine is Active whenever the render/center
guard holds).  Concretely, with visible watched google layers 0 (bottom) and
1 (top), layer 1's parameters are applied; hiding layer 1 re-runs the
decision, which selects layer 0, and the state machine never leaves Active
(no `markActive false` is ever logged). -/
theorem claim_C1_topmost_visible_wins :
    (∀ (env : LayerEnv) (s : HeraldState) (w : Nat),
      toggleWinner env s = some w ↔
        winnerPred env s w = true ∧
        ∃ pre post, s.mapLayers = pre ++ w :: post ∧
          ∀ x ∈ post, winnerPred env s x = false) ∧
    (∀ (env : LayerEnv) (s : HeraldState) (w : Nat),
      toggleWinner env s = some w →
        (toggleGoogleMaps env s).gmapMapTypeId = some (env.mapTypeId w) ∧
        (toggleGoogleMaps env s).gmapStyles = some (env.styles w)) ∧
    (∀ (env : LayerEnv) (s : HeraldState) (w : Nat),
      toggleWinner env s = some w → s.ol3mapIsRenderered = true →
      s.centerDefined = true →
        (toggleGoogleMaps env s).googleMapsIsActive = true) ∧
    (cTwoGoogle.gmapMapTypeId = some 11 ∧
     cTwoGoogle.googleMapsIsActive = true ∧
     (step cEnv cTwoGoogle (Ev.setVisible 1 false)).gmapMapTypeId = some 10 ∧
     (step cEnv cTwoGoogle (Ev.setVisible 1 false)).googleMapsIsActive = true ∧
     Action.markActive false ∉
       (step cEnv cTwoGoogle (Ev.setVisible 1 false)).log) := by
  refine ⟨toggleWinner_eq_some_iff, ?_, ?_, ?_⟩
  · exact fun env s w h => toggleGoogleMaps_params h
  · intro env s w h hr hc
    rw [toggleGoogleMaps_active_of_winner h]
    simp [hr, hc]
  · exact ⟨by decide, by decide, by decide, by decide, by decide⟩

theorem claim_C1_witness :
    toggleWinner cEnv cTwoGoogle = some 1 ∧
    (toggleGoogleMaps cEnv cTwoGoogle).gmapMapTypeId =
      some (cEnv.mapTypeId 1) ∧
    (toggleGoogleMaps cEnv cTwoGoogle).googleMapsIsActive = true :=
  ⟨by decide,
   (claim_C1_topmost_visible_wins.2.1 cEnv cTwoGoogle 1 (by decide)).1,
   claim_C1_topmost_visible_wins.2.2.1 cEnv cTwoGoogle 1 (by decide)
     (by decide) (by decide)⟩

/-- C7: the state-machine activate and deactivate routines are idempotent:
calling `activateGoogleMaps_` twice produces exactly the same state as
calling it once (and likewise for `deactivateGoogleMaps_`), and every
redundant call (activate while active, deactivate while inactive) is a
no-op. -/
theorem claim_C7_activation_idempotent (s : HeraldState) :
    activateGoogleMaps (activateGoogleMaps s) = activateGoogleMaps s ∧
    deactivateGoogleMaps (deactivateGoogleMaps s) = deactivateGoogleMaps s ∧
    (s.googleMapsIsActive = true → activateGoogleMaps s = s) ∧
    (s.googleMapsIsActive = false → deactivateGoogleMaps s = s) := by
  refine ⟨?_, ?_, fun h => activateGoogleMaps_of_active h,
    fun h => deactivateGoogleMaps_of_inactive h⟩
  · by_cases h : s.googleMapsIsActive = true
    · rw [activateGoogleMaps_of_active h, activateGoogleMaps_of_active h]
    · by_cases hready : s.ol3mapIsRenderered = true ∧ s.centerDefined = true
      · have : (activateGoogleMaps s).googleMapsIsActive = true := by
          rw [activateGoogleMaps_active]
          simp [hready.1, hready.2]
        rw [activateGoogleMaps_of_active this]
      · have hnr : s.ol3mapIsRenderered = false ∨ s.centerDefined = false := by
          revert hready
          cases s.ol3mapIsRenderered <;> cases s.centerDefined <;> simp
        rw [activateGoogleMaps_of_not_ready hnr,
          activateGoogleMaps_of_not_ready hnr]
  · exact deactivateGoogleMaps_of_inactive (deactivateGoogleMaps_active s)

theorem claim_C7_witness :
    activateGoogleMaps cTwoGoogle = cTwoGoogle ∧
    deactivateGoogleMaps cInit = cInit :=
  ⟨(claim_C7_activation_idempotent cTwoGoogle).2.2.1 (by rfl),
   (claim_C7_activation_idempotent cInit).2.2.2 (by rfl)⟩

/-- C9: unwatching a layer that is not in the corresponding tracked list is
a silent no-op for both caches: the entire state (caches, tracked lists,
subscriptions, overlays, synchronizers, opacities, log) is unchanged. -/
theorem claim_C9_unwatch_absent_noop (env : LayerEnv) (l : Nat)
    (s : HeraldState) :
    (l ∉ s.googleLayers → unwatchGoogleLayer env l s = s) ∧
    (l ∉ s.vectorLayers → unwatchVectorLayer l s = s) :=
  ⟨fun h => unwatchGoogleLayer_not_mem h,
   fun h => unwatchVectorLayer_not_mem h⟩

theorem claim_C9_witness :
    unwatchGoogleLayer cEnv 7 cTwoGoogle = cTwoGoogle ∧
    unwatchVectorLayer 7 cWithVector = cWithVector :=
  ⟨(claim_C9_unwatch_absent_noop cEnv 7 cTwoGoogle).1 (by decide),
   (claim_C9_unwatch_absent_noop cEnv 7 cWithVector).2 (by decide)⟩

/-- C10: when the toggle decision finds a winner but the activation guard
fails (not rendered, or no center), the winner's map-type id and styles are
still written to the Google map, the corresponding log entries are appended,
and nothing else changes — in particular the state machine stays Inactive
and no DOM mutation happens. -/
theorem claim_C10_params_applied_while_inactive (env : LayerEnv)
    (s : HeraldState) (w : Nat)
    (hw : toggleWinner env s = some w)
    (_hact : s.googleMapsIsActive = false)
    (hnr : s.ol3mapIsRenderered = false ∨ s.centerDefined = false) :
    toggleGoogleMaps env s =
      { s with
        gmapMapTypeId := some (env.mapTypeId w),
        gmapStyles := some (env.styles w),
        log := s.log ++ [Action.setMapTypeId (env.mapTypeId w),
                         Action.setStyles (env.styles w)] } := by
  rw [toggleGoogleMaps_of_winner hw]
  exact activateGoogleMaps_of_not_ready hnr

/-- A herald that has watched visible google layer 0 while neither rendered
nor centered. -/
def cNotReady : HeraldState := run cEnv cInit [Ev.addLayer 0]

theorem claim_C10_witness :
    toggleGoogleMaps cEnv cNotReady =
      { cNotReady with
        gmapMapTypeId := some (cEnv.mapTypeId 0),
        gmapStyles := some (cEnv.styles 0),
        log := cNotReady.log ++ [Action.setMapTypeId (cEnv.mapTypeId 0),
                                 Action.setStyles (cEnv.styles 0)] } :=
  claim_C10_params_applied_while_inactive cEnv cNotReady 0 (by decide)
    (by decide) (Or.inl (by decide))

/-- C8 counterexample: on a concrete active state with one vector cache
entry, `deactivateGoogleMaps_` logs `markActive false` strictly after the
per-entry deactivation effects, so the claimed order (state marked Inactive
before the per-entry deactivations run) is false. -/
theorem claim_C8_counterexample :
    ((deactivateGoogleMaps cWithVector).log.drop cWithVector.log.length =
      [Action.removeControlAt 0,
       Action.removeChildTarget Elem.gmapEl,
       Action.appendChildTarget Elem.ol3mapEl,
       Action.viewHeraldDeactivate,
       Action.setPositionStyle PosStyle.relative,
       Action.vsDeactivate 0,
       Action.setLayerOpacity 2 (mkRat 4 5),
       Action.markActive false]) ∧
    ¬ (∀ i j : Fin ((deactivateGoogleMaps cWithVector).log.drop
          cWithVector.log.length).length,
        ((deactivateGoogleMaps cWithVector).log.drop
          cWithVector.log.length).get i = Action.markActive false →
        isVsDeactivate (((deactivateGoogleMaps cWithVector).log.drop
          cWithVector.log.length).get j) = true →
        (i : Nat) < (j : Nat)) := by
  constructor
  · decide
  · decide

/-- C8 (amended): on entering Inactive the routine removes the OpenLayers
element from the Google map's control stack, detaches the Google map
element, re-attaches the OpenLayers element, deactivates the view herald,
resets the positioning style, runs the per-entry deactivation for every
vector cache entry, and only then marks the state Inactive — the per-entry
deactivations run before the Inactive mark, not after it. -/
theorem claim_C8_deactivation_order {s : HeraldState}
    (h : s.googleMapsIsActive = true) :
    (deactivateGoogleMaps s).log = s.log ++
      ([Action.removeControlAt 0,
        Action.removeChildTarget Elem.gmapEl,
        Action.appendChildTarget Elem.ol3mapEl,
        Action.viewHeraldDeactivate,
        Action.setPositionStyle PosStyle.relative] ++
       s.vectorCache.flatMap (fun it =>
         [Action.vsDeactivate it.herald,
          Action.setLayerOpacity it.layer it.opacity]) ++
       [Action.markActive false]) ∧
    (deactivateGoogleMaps s).googleMapsIsActive = false :=
  ⟨deactivateGoogleMaps_log h, deactivateGoogleMaps_active s⟩

theorem claim_C8_witness :
    (deactivateGoogleMaps cWithVector).log = cWithVector.log ++
      ([Action.removeControlAt 0,
        Action.removeChildTarget Elem.gmapEl,
        Action.appendChildTarget Elem.ol3mapEl,
        Action.viewHeraldDeactivate,
        Action.setPositionStyle PosStyle.relative] ++
       cWithVector.vectorCache.flatMap (fun it =>
         [Action.vsDeactivate it.herald,
          Action.setLayerOpacity it.layer it.opacity]) ++
       [Action.markActive false]) ∧
    (deactivateGoogleMaps cWithVector).googleMapsIsActive = false :=
  claim_C8_deactivation_order (by decide)

theorem map_eraseIdx {α β : Type} (f : α → β) :
    ∀ (l : List α) (i : Nat), (l.eraseIdx i).map f = (l.map f).eraseIdx i := by
  intro l
  induction l with
  | nil => intro i; rfl
  | cons a l ih =>
    intro i
    cases i with
    | zero => rfl
    | succ n => simp [List.eraseIdx, ih n]

theorem cacheAligned_frame {t s : HeraldState} (F : Frame t s)
    (h : CacheAligned s) : CacheAligned t := by
  unfold CacheAligned
  rw [F.googleCache, F.googleLayers, F.vectorCache, F.vectorLayers]
  exact h

theorem kindSorted_frame {env : LayerEnv} {t s : HeraldState} (F : Frame t s)
    (h : KindSorted env s) : KindSorted env t := by
  unfold KindSorted
  rw [F.googleLayers, F.vectorLayers]
  exact h

theorem gateInv_frame {t s : HeraldState} (F : Frame t s) (h : GateInv s) :
    GateInv t := by
  unfold GateInv
  rw [F.waitP, F.rendered, F.center]
  exact h

theorem retryInv_frame {env : LayerEnv} {t s : HeraldState} (F : Frame t s)
    (ha : t.googleMapsIsActive = s.googleMapsIsActive)
    (h : RetryInv env s) : RetryInv env t := by
  intro hr hc hw
  rw [F.mapLayers, winnerPred_frame F] at hw
  rw [ha]
  exact h (F.rendered ▸ hr) (F.center ▸ hc) hw

theorem winnerPred_update_not_mem {env : LayerEnv} {s : HeraldState} {l : Nat}
    {b : Bool} (hl : l ∉ s.googleLayers) (x : Nat) :
    winnerPred env
      { s with visible := Function.update s.visible l b } x =
      winnerPred env s x := by
  unfold winnerPred
  by_cases hx : x = l
  · subst hx
    simp [hl]
  · simp [Function.update_noteq hx]

theorem exists_winner_append_iff {p : Nat → Bool} {ml : List Nat} {l : Nat}
    (hl : p l = false) :
    ((∃ x ∈ ml ++ [l], p x = true) ↔ (∃ x ∈ ml, p x = true)) := by
  constructor
  · rintro ⟨x, hx, hp⟩
    rcases List.mem_append.mp hx with hx | hx
    · exact ⟨x, hx, hp⟩
    · rw [List.mem_singleton.mp hx] at hp
      rw [hl] at hp
      cases hp
  · rintro ⟨x, hx, hp⟩
    exact ⟨x, List.mem_append.mpr (Or.inl hx), hp⟩

theorem inv_toggle (env : LayerEnv) {t : HeraldState} (hC : CacheAligned t)
    (hK : KindSorted env t) (hG : GateInv t) :
    Inv env (toggleGoogleMaps env t) :=
  have F := frame_toggleGoogleMaps env t
  ⟨cacheAligned_frame F hC, kindSorted_frame F hK, gateInv_frame F hG,
   toggleGoogleMaps_establishes env t⟩

theorem inv_watchGoogleLayer (env : LayerEnv) (l : Nat) {s : HeraldState}
    (hC : CacheAligned s) (hK : KindSorted env s) (hG : GateInv s)
    (hk : env.kind l = LayerKind.google) :
    Inv env (watchGoogleLayer env l s) := by
  unfold watchGoogleLayer
  apply inv_toggle
  · constructor
    · show (s.googleCache ++ [(⟨l, [s.nextKey]⟩ : GoogleCacheItem)]).map
          GoogleCacheItem.layer = s.googleLayers ++ [l]
      rw [List.map_append, hC.1]
      rfl
    · exact hC.2
  · constructor
    · intro x hx
      rcases List.mem_append.mp hx with hx | hx
      · exact hK.1 x hx
      · rw [List.mem_singleton.mp hx]
        exact hk
    · exact hK.2
  · exact hG

theorem watchVectorLayer_fields (env : LayerEnv) (l : Nat) (s : HeraldState)
    (hsrc : env.hasSource l = true) :
    (watchVectorLayer env l s).vectorLayers = s.vectorLayers ++ [l] ∧
    (watchVectorLayer env l s).vectorCache = s.vectorCache ++
      [⟨s.nextData, s.nextSync, l, [s.nextKey], s.opacity l⟩] ∧
    (watchVectorLayer env l s).googleLayers = s.googleLayers ∧
    (watchVectorLayer env l s).googleCache = s.googleCache ∧
    (watchVectorLayer env l s).mapLayers = s.mapLayers ∧
    (watchVectorLayer env l s).visible = s.visible ∧
    (watchVectorLayer env l s).googleMapsIsActive = s.googleMapsIsActive ∧
    (watchVectorLayer env l s).ol3mapIsRenderered = s.ol3mapIsRenderered ∧
    (watchVectorLayer env l s).centerDefined = s.centerDefined ∧
    (watchVectorLayer env l s).waitingCenter = s.waitingCenter ∧
    (watchVectorLayer env l s).waitingPostrender = s.waitingPostrender := by
  unfold watchVectorLayer
  rw [if_neg (by simp [hsrc])]
  dsimp only
  unfold activateVectorLayerCacheItem
  split <;>
    exact ⟨rfl, rfl, rfl, rfl, rfl, rfl, rfl, rfl, rfl, rfl, rfl⟩

theorem inv_watchVectorLayer (env : LayerEnv) (l : Nat) {s : HeraldState}
    (h : Inv env s) (hk : env.kind l = LayerKind.vector) :
    Inv env (watchVectorLayer env l s) := by
  obtain ⟨hC, hK, hG, hR⟩ := h
  cases hsrc : env.hasSource l with
  | false =>
    have : watchVectorLayer env l s = s := by
      unfold watchVectorLayer
      rw [if_pos (by simp [hsrc])]
    rw [this]
    exact ⟨hC, hK, hG, hR⟩
  | true =>
    obtain ⟨f1, f2, f3, f4, f5, f6, f7, f8, f9, f10, f11⟩ :=
      watchVectorLayer_fields env l s hsrc
    refine ⟨⟨?_, ?_⟩, ⟨?_, ?_⟩, ⟨?_, ?_⟩, ?_⟩
    · rw [f4, f3]
      exact hC.1
    · rw [f2, f1, List.map_append, hC.2]
      rfl
    · rw [f3]
      exact hK.1
    · rw [f1]
      intro x hx
      rcases List.mem_append.mp hx with hx | hx
      · exact hK.2 x hx
      · rw [List.mem_singleton.mp hx]
        exact hk
    · rw [f11, f9]
      exact hG.1
    · rw [f8, f9]
      exact hG.2
    · intro hr hc hw
      rw [f7]
      apply hR (f8 ▸ hr) (f9 ▸ hc)
      rw [f5] at hw
      have hpred : ∀ x, winnerPred env (watchVectorLayer env l s) x =
          winnerPred env s x := by
        intro x
        unfold winnerPred
        rw [f6, f3]
      obtain ⟨x, hx, hp⟩ := hw
      exact ⟨x, hx, (hpred x) ▸ hp⟩

theorem inv_unwatchGoogleLayer (env : LayerEnv) (l : Nat) {s : HeraldState}
    (hC : CacheAligned s) (hK : KindSorted env s) (hG : GateInv s)
    (hR : RetryInv env s) : Inv env (unwatchGoogleLayer env l s) := by
  unfold unwatchGoogleLayer
  cases hfi : s.googleLayers.findIdx? (· == l) with
  | none => exact ⟨hC, hK, hG, hR⟩
  | some i =>
    have hi : i < s.googleLayers.length :=
      (List.findIdx?_eq_some_iff_findIdx_eq.mp hfi).1
    have hlen : s.googleCache.length = s.googleLayers.length := by
      rw [← hC.1, List.length_map]
    dsimp only
    cases hg : s.googleCache[i]? with
    | none =>
      rw [List.getElem?_eq_none_iff] at hg
      omega
    | some it =>
      dsimp only
      apply inv_toggle
      · constructor
        · show (s.googleCache.eraseIdx i).map GoogleCacheItem.layer =
            s.googleLayers.eraseIdx i
          rw [map_eraseIdx, hC.1]
        · exact hC.2
      · constructor
        · intro x hx
          exact hK.1 x (List.Sublist.mem hx (List.eraseIdx_sublist _ i))
        · exact hK.2
      · exact hG

theorem unwatchVectorLayer_fields {l : Nat} {s : HeraldState} {i : Nat}
    {it : VectorCacheItem}
    (hfi : s.vectorLayers.findIdx? (· == l) = some i)
    (hit : s.vectorCache[i]? = some it) :
    (unwatchVectorLayer l s).vectorLayers = s.vectorLayers.eraseIdx i ∧
    (unwatchVectorLayer l s).vectorCache = s.vectorCache.eraseIdx i ∧
    (unwatchVectorLayer l s).googleLayers = s.googleLayers ∧
    (unwatchVectorLayer l s).googleCache = s.googleCache ∧
    (unwatchVectorLayer l s).mapLayers = s.mapLayers ∧
    (unwatchVectorLayer l s).visible = s.visible ∧
    (unwatchVectorLayer l s).googleMapsIsActive = s.googleMapsIsActive ∧
    (unwatchVectorLayer l s).ol3mapIsRenderered = s.ol3mapIsRenderered ∧
    (unwatchVectorLayer l s).centerDefined = s.centerDefined ∧
    (unwatchVectorLayer l s).waitingCenter = s.waitingCenter ∧
    (unwatchVectorLayer l s).waitingPostrender = s.waitingPostrender ∧
    (unwatchVectorLayer l s).opacity = Function.update s.opacity l it.opacity := by
  unfold unwatchVectorLayer
  rw [hfi]
  dsimp only
  rw [hit]
  exact ⟨rfl, rfl, rfl, rfl, rfl, rfl, rfl, rfl, rfl, rfl, rfl, rfl⟩

theorem inv_unwatchVectorLayer (env : LayerEnv) (l : Nat) {s : HeraldState}
    (h : Inv env s) : Inv env (unwatchVectorLayer l s) := by
  obtain ⟨hC, hK, hG, hR⟩ := h
  cases hfi : s.vectorLayers.findIdx? (· == l) with
  | none =>
    have : unwatchVectorLayer l s = s := by
      unfold unwatchVectorLayer
      rw [hfi]
    rw [this]
    exact ⟨hC, hK, hG, hR⟩
  | some i =>
    have hi : i < s.vectorLayers.length :=
      (List.findIdx?_eq_some_iff_findIdx_eq.mp hfi).1
    have hlen : s.vectorCache.length = s.vectorLayers.length := by
      rw [← hC.2, List.length_map]
    cases hg : s.vectorCache[i]? with
    | none =>
      rw [List.getElem?_eq_none_iff] at hg
      omega
    | some it =>
      obtain ⟨f1, f2, f3, f4, f5, f6, f7, f8, f9, f10, f11, f12⟩ :=
        unwatchVectorLayer_fields hfi hg
      refine ⟨⟨?_, ?_⟩, ⟨?_, ?_⟩, ⟨?_, ?_⟩, ?_⟩
      · rw [f4, f3]
        exact hC.1
      · rw [f2, f1, map_eraseIdx, hC.2]
      · rw [f3]
        exact hK.1
      · rw [f1]
        intro x hx
        exact hK.2 x (List.Sublist.mem hx (List.eraseIdx_sublist _ i))
      · rw [f11, f9]
        exact hG.1
      · rw [f8, f9]
        exact hG.2
      · intro hr hc hw
        rw [f7]
        apply hR (f8 ▸ hr) (f9 ▸ hc)
        rw [f5] at hw
        have hpred : ∀ x, winnerPred env (unwatchVectorLayer l s) x =
            winnerPred env s x := by
          intro x
          unfold winnerPred
          rw [f6, f3]
        obtain ⟨x, hx, hp⟩ := hw
        exact ⟨x, hx, (hpred x) ▸ hp⟩

theorem inv_toggle' (env : LayerEnv) {x : HeraldState} (h : Inv env x) :
    Inv env (toggleGoogleMaps env x) :=
  inv_toggle env h.1 h.2.1 h.2.2.1

theorem inv_foldToggles (env : LayerEnv) {α : Type} (L : List α)
    {x : HeraldState} (h : Inv env x) :
    Inv env (L.foldl (fun acc _ => toggleGoogleMaps env acc) x) := by
  induction L generalizing x with
  | nil => exact h
  | cons a L ih => exact ih (inv_toggle' env h)

theorem inv_foldToggles_of_ne_nil (env : LayerEnv) {α : Type}
    {L : List α} (hne : L ≠ []) {x : HeraldState} (hC : CacheAligned x)
    (hK : KindSorted env x) (hG : GateInv x) :
    Inv env (L.foldl (fun acc _ => toggleGoogleMaps env acc) x) := by
  cases L with
  | nil => exact absurd rfl hne
  | cons a L => exact inv_foldToggles env L (inv_toggle env hC hK hG)

theorem inv_handleFold (env : LayerEnv) (L : List VectorCacheItem)
    {x : HeraldState} (h : Inv env x) :
    Inv env (L.foldl (fun acc it => handleVectorLayerVisibleChange it acc) x) :=
  have F := frame_foldl _ frame_handleVectorLayerVisibleChange L x
  have ha := foldl_active _ handleVectorLayerVisibleChange_active L x
  ⟨cacheAligned_frame F h.1, kindSorted_frame F h.2.1,
   gateInv_frame F h.2.2.1, retryInv_frame F ha h.2.2.2⟩

theorem inv_step (env : LayerEnv) {s : HeraldState} (h : Inv env s)
    (e : Ev) : Inv env (step env s e) := by
  obtain ⟨hC, hK, hG, hR⟩ := h
  cases e with
  | addLayer l =>
    show Inv env (watchLayer env l { s with mapLayers := s.mapLayers ++ [l] })
    unfold watchLayer
    by_cases hk : env.kind l = LayerKind.google
    · rw [if_pos hk]
      exact inv_watchGoogleLayer env l hC hK hG hk
    · rw [if_neg hk]
      have hl : winnerPred env s l = false := by
        unfold winnerPred
        rw [beq_eq_false_iff_ne.mpr hk]
        rfl
      have hR' : RetryInv env
          { s with mapLayers := s.mapLayers ++ [l] } := by
        intro hr hc hw
        apply hR hr hc
        exact (exists_winner_append_iff hl).mp hw
      by_cases hv : env.kind l = LayerKind.vector ∧ env.watchVector = true
      · rw [if_pos hv]
        exact inv_watchVectorLayer env l ⟨hC, hK, hG, hR'⟩ hv.1
      · rw [if_neg hv]
        exact ⟨hC, hK, hG, hR'⟩
  | removeLayer l =>
    show Inv env (if s.mapLayers.contains l then
      unwatchLayer env l { s with mapLayers := s.mapLayers.erase l } else s)
    by_cases hmem : s.mapLayers.contains l = true
    · rw [if_pos hmem]
      have hR' : RetryInv env
          { s with mapLayers := s.mapLayers.erase l } := by
        intro hr hc hw
        apply hR hr hc
        obtain ⟨x, hx, hp⟩ := hw
        exact ⟨x, List.mem_of_mem_erase hx, hp⟩
      unfold unwatchLayer
      by_cases hk : env.kind l = LayerKind.google
      · rw [if_pos hk]
        exact inv_unwatchGoogleLayer env l hC hK hG hR'
      · rw [if_neg hk]
        by_cases hv : env.kind l = LayerKind.vector ∧ env.watchVector = true
        · rw [if_pos hv]
          exact inv_unwatchVectorLayer env l ⟨hC, hK, hG, hR'⟩
        · rw [if_neg hv]
          exact ⟨hC, hK, hG, hR'⟩
    · rw [if_neg hmem]
      exact ⟨hC, hK, hG, hR⟩
  | setVisible l b =>
    show Inv env
      ((({ s with visible := Function.update s.visible l b }).vectorCache.filter
        (fun it : VectorCacheItem => it.layer == l)).foldl
          (fun acc it => handleVectorLayerVisibleChange it acc) _)
    apply inv_handleFold
    by_cases hmem : l ∈ s.googleLayers
    · have hexit : ∃ it ∈ s.googleCache, it.layer = l := by
        rw [← hC.1] at hmem
        obtain ⟨it, hit, hl⟩ := List.mem_map.mp hmem
        exact ⟨it, hit, hl⟩
      obtain ⟨it, hitmem, hitl⟩ := hexit
      have hne : s.googleCache.filter (fun it => it.layer == l) ≠ [] := by
        apply List.ne_nil_of_mem (a := it)
        rw [List.mem_filter]
        exact ⟨hitmem, by simp [hitl]⟩
      exact inv_foldToggles_of_ne_nil env hne hC hK hG
    · have hR1 : RetryInv env
          { s with visible := Function.update s.visible l b } := by
        intro hr hc hw
        apply hR hr hc
        obtain ⟨x, hx, hp⟩ := hw
        exact ⟨x, hx, (winnerPred_update_not_mem hmem x) ▸ hp⟩
      exact inv_foldToggles env _ ⟨hC, hK, hG, hR1⟩
  | centerEvent =>
    show Inv env (if s.waitingCenter = true then _ else _)
    by_cases hw : s.waitingCenter = true
    · rw [if_pos hw]
      exact inv_toggle env hC hK ⟨fun _ => rfl, fun _ => rfl⟩
    · rw [if_neg hw]
      refine ⟨hC, hK, ⟨fun _ => rfl, fun _ => rfl⟩, ?_⟩
      intro hr hc hwx
      exact hR hr (hG.2 hr) hwx
  | postrenderEvent =>
    show Inv env (if s.waitingPostrender = true then _ else _)
    by_cases hw : s.waitingPostrender = true
    · rw [if_pos hw]
      refine inv_toggle env hC hK ⟨fun hcon => ?_, fun _ => hG.1 hw⟩
      exact absurd hcon (by simp)
    · rw [if_neg hw]
      exact ⟨hC, hK, hG, hR⟩

theorem inv_mkInitial (env : LayerEnv) (ml : List Nat) (vis : Nat → Bool)
    (op : Nat → ℚ) (c : Bool) : Inv env (mkInitial ml vis op c) := by
  refine ⟨⟨rfl, rfl⟩, ⟨?_, ?_⟩, ⟨fun h => h, ?_⟩, ?_⟩
  · intro l hl
    exact absurd hl (List.not_mem_nil l)
  · intro l hl
    exact absurd hl (List.not_mem_nil l)
  · intro hr
    exact absurd hr (by simp [mkInitial])
  · intro hr
    exact absurd hr (by simp [mkInitial])

theorem inv_run (env : LayerEnv) {s : HeraldState} (h : Inv env s)
    (evs : List Ev) : Inv env (run env s evs) := by
  induction evs generalizing s with
  | nil => exact h
  | cons e evs ih => exact ih (inv_step env h e)

/-- C4: after any sequence of events (collection adds/removes, which watch
and unwatch layers, visibility changes, and the render/center signals), each
cache has the same length as its parallel tracked-layer list, the two
tracked lists are disjoint (a layer is in at most one cache), and each cache
is index-aligned with its list: the entry at index `i` holds exactly the
layer at index `i`. -/
theorem claim_C4_cache_alignment (env : LayerEnv) (ml : List Nat)
    (vis : Nat → Bool) (op : Nat → ℚ) (c : Bool) (evs : List Ev) :
    (run env (mkInitial ml vis op c) evs).googleCache.map
        GoogleCacheItem.layer =
      (run env (mkInitial ml vis op c) evs).googleLayers ∧
    (run env (mkInitial ml vis op c) evs).vectorCache.map
        VectorCacheItem.layer =
      (run env (mkInitial ml vis op c) evs).vectorLayers ∧
    (run env (mkInitial ml vis op c) evs).googleCache.length =
      (run env (mkInitial ml vis op c) evs).googleLayers.length ∧
    (run env (mkInitial ml vis op c) evs).vectorCache.length =
      (run env (mkInitial ml vis op c) evs).vectorLayers.length ∧
    (∀ l, ¬(l ∈ (run env (mkInitial ml vis op c) evs).googleLayers ∧
      l ∈ (run env (mkInitial ml vis op c) evs).vectorLayers)) ∧
    (∀ (i : Nat) (it : GoogleCacheItem),
      (run env (mkInitial ml vis op c) evs).googleCache[i]? = some it →
      (run env (mkInitial ml vis op c) evs).googleLayers[i]? =
        some it.layer) ∧
    (∀ (i : Nat) (it : VectorCacheItem),
      (run env (mkInitial ml vis op c) evs).vectorCache[i]? = some it →
      (run env (mkInitial ml vis op c) evs).vectorLayers[i]? =
        some it.layer) := by
  have hInv := inv_run env (inv_mkInitial env ml vis op c) evs
  obtain ⟨⟨hg, hv⟩, ⟨hkg, hkv⟩, -, -⟩ := hInv
  refine ⟨hg, hv, ?_, ?_, ?_, ?_, ?_⟩
  · rw [← hg, List.length_map]
  · rw [← hv, List.length_map]
  · rintro l ⟨h1, h2⟩
    have hq1 := hkg l h1
    have hq2 := hkv l h2
    rw [hq1] at hq2
    cases hq2
  · intro i it hit
    rw [← hg, List.getElem?_map, hit]
    rfl
  · intro i it hit
    rw [← hv, List.getElem?_map, hit]
    rfl

theorem claim_C4_witness :
    (run cEnv (mkInitial [] (fun _ => true) (fun _ => mkRat 4 5) true)
      [Ev.postrenderEvent, Ev.addLayer 0, Ev.addLayer 2]).vectorLayers[0]? =
      some 2 :=
  (claim_C4_cache_alignment cEnv [] (fun _ => true) (fun _ => mkRat 4 5) true
    [Ev.postrenderEvent, Ev.addLayer 0, Ev.addLayer 2]).2.2.2.2.2.2 0
    (⟨0, 0, 2, [1], mkRat 4 5⟩ : VectorCacheItem) (by decide)

/-- C2: `activateGoogleMaps_` transitions to Active exactly when the state
machine is not already Active, the map has rendered, and a center is
defined; when any of the three preconditions fails the call returns the
state completely unchanged; and along every event history, whenever the
render and center flags are set and a winning layer is present, the state
machine is Active — a gated activation has been retried automatically by
the signal handlers. -/
theorem claim_C2_activation_guard :
    (∀ s : HeraldState,
      (s.googleMapsIsActive = false → s.ol3mapIsRenderered = true →
        s.centerDefined = true →
        (activateGoogleMaps s).googleMapsIsActive = true) ∧
      ((s.googleMapsIsActive = true ∨ s.ol3mapIsRenderered = false ∨
        s.centerDefined = false) → activateGoogleMaps s = s)) ∧
    (∀ (env : LayerEnv) (ml : List Nat) (vis : Nat → Bool) (op : Nat → ℚ)
      (c : Bool) (evs : List Ev),
      RetryInv env (run env (mkInitial ml vis op c) evs)) := by
  constructor
  · intro s
    constructor
    · intro ha hr hc
      rw [activateGoogleMaps_active]
      simp [ha, hr, hc]
    · intro hcase
      rcases hcase with h | h | h
      · exact activateGoogleMaps_of_active h
      · exact activateGoogleMaps_of_not_ready (Or.inl h)
      · exact activateGoogleMaps_of_not_ready (Or.inr h)
  · intro env ml vis op c evs
    exact (inv_run env (inv_mkInitial env ml vis op c) evs).2.2.2

theorem claim_C2_witness :
    (activateGoogleMaps (run cEnv cInitC [Ev.postrenderEvent])).googleMapsIsActive
      = true ∧
    activateGoogleMaps cInit = cInit ∧
    (run cEnv (mkInitial [] (fun _ => true) (fun _ => mkRat 4 5) true)
      [Ev.postrenderEvent, Ev.addLayer 0]).googleMapsIsActive = true :=
  ⟨(claim_C2_activation_guard.1 (run cEnv cInitC [Ev.postrenderEvent])).1
      (by decide) (by decide) (by decide),
   (claim_C2_activation_guard.1 cInit).2 (Or.inr (Or.inl (by decide))),
   claim_C2_activation_guard.2 cEnv [] (fun _ => true) (fun _ => mkRat 4 5)
     true [Ev.postrenderEvent, Ev.addLayer 0] (by decide) (by decide)
     ⟨0, by decide, by decide⟩⟩

/-- Events that are part of the activation/visibility history: visibility
changes and the render/center signals, but no collection add/remove (no
watch or unwatch). -/
def isVisibilityEvent : Ev → Bool
  | Ev.addLayer _ => false
  | Ev.removeLayer _ => false
  | _ => true

theorem step_visibility_pres_vector (env : LayerEnv) (s : HeraldState)
    (e : Ev) (he : isVisibilityEvent e = true) :
    (step env s e).vectorCache = s.vectorCache ∧
    (step env s e).vectorLayers = s.vectorLayers := by
  cases e with
  | addLayer l => exact absurd he (by simp [isVisibilityEvent])
  | removeLayer l => exact absurd he (by simp [isVisibilityEvent])
  | setVisible l b =>
    have F : Frame (step env s (Ev.setVisible l b))
        { s with visible := Function.update s.visible l b } := by
      unfold step
      exact frame_trans
        (frame_foldl _ frame_handleVectorLayerVisibleChange _ _)
        (frame_foldl _ (fun _ x => frame_toggleGoogleMaps env x) _ _)
    exact ⟨F.vectorCache, F.vectorLayers⟩
  | centerEvent =>
    by_cases hw : s.waitingCenter = true
    · have heq : step env s Ev.centerEvent = toggleGoogleMaps env
          { s with centerDefined := true, waitingCenter := false,
                   waitingPostrender := true } := by
        unfold step
        rw [if_pos hw]
      rw [heq]
      have F := frame_toggleGoogleMaps env
        { s with centerDefined := true, waitingCenter := false,
                 waitingPostrender := true }
      exact ⟨F.vectorCache, F.vectorLayers⟩
    · have heq : step env s Ev.centerEvent =
          { s with centerDefined := true } := by
        unfold step
        rw [if_neg hw]
      rw [heq]
      exact ⟨rfl, rfl⟩
  | postrenderEvent =>
    by_cases hw : s.waitingPostrender = true
    · have heq : step env s Ev.postrenderEvent = toggleGoogleMaps env
          { s with waitingPostrender := false, ol3mapIsRenderered := true } := by
        unfold step
        rw [if_pos hw]
      rw [heq]
      have F := frame_toggleGoogleMaps env
        { s with waitingPostrender := false, ol3mapIsRenderered := true }
      exact ⟨F.vectorCache, F.vectorLayers⟩
    · have heq : step env s Ev.postrenderEvent = s := by
        unfold step
        rw [if_neg hw]
      rw [heq]
      exact ⟨rfl, rfl⟩

theorem run_visibility_pres_vector (env : LayerEnv) (t : List Ev)
    (ht : ∀ e ∈ t, isVisibilityEvent e = true) (s : HeraldState) :
    (run env s t).vectorCache = s.vectorCache ∧
    (run env s t).vectorLayers = s.vectorLayers := by
  induction t generalizing s with
  | nil => exact ⟨rfl, rfl⟩
  | cons e t ih =>
    have h1 := step_visibility_pres_vector env s e (ht e (List.mem_cons_self e t))
    have h2 := ih (fun x hx => ht x (List.mem_cons_of_mem e hx)) (step env s e)
    exact ⟨h2.1.trans h1.1, h2.2.trans h1.2⟩

theorem findIdx?_append_self {l : Nat} {xs : List Nat} (h : l ∉ xs) :
    (xs ++ [l]).findIdx? (· == l) = some xs.length := by
  rw [List.findIdx?_eq_some_iff_findIdx_eq]
  constructor
  · simp
  · induction xs with
    | nil => simp [List.findIdx_cons]
    | cons a xs ih =>
      have ha : (a == l) = false := by
        rw [beq_eq_false_iff_ne]
        intro heq
        exact h (heq ▸ List.mem_cons_self a xs)
      have h' : l ∉ xs := fun hx => h (List.mem_cons_of_mem a hx)
      rw [List.cons_append, List.findIdx_cons, ha]
      simp [ih h']

/-- C5: `savedOpacity` is captured exactly once, at watch time, before the
watch routine's own opacity mutation (the cache item stores the pre-watch
opacity even though watching while Active immediately sets the layer
transparent); and after any activation/visibility history followed by an
unwatch, the layer's opacity is exactly the value it had immediately before
it was watched. -/
theorem claim_C5_saved_opacity_restored (env : LayerEnv) (l : Nat)
    (s : HeraldState) (t : List Ev)
    (hsrc : env.hasSource l = true)
    (hnew : l ∉ s.vectorLayers)
    (hal : s.vectorCache.map VectorCacheItem.layer = s.vectorLayers)
    (ht : ∀ e ∈ t, isVisibilityEvent e = true) :
    (watchVectorLayer env l s).vectorCache = s.vectorCache ++
      [(⟨s.nextData, s.nextSync, l, [s.nextKey], s.opacity l⟩ :
        VectorCacheItem)] ∧
    (unwatchVectorLayer l (run env (watchVectorLayer env l s) t)).opacity l =
      s.opacity l := by
  obtain ⟨f1, f2, -, -, -, -, -, -, -, -, -⟩ :=
    watchVectorLayer_fields env l s hsrc
  refine ⟨f2, ?_⟩
  have hpres := run_visibility_pres_vector env t ht (watchVectorLayer env l s)
  have hvc2 : (run env (watchVectorLayer env l s) t).vectorCache =
      s.vectorCache ++
        [(⟨s.nextData, s.nextSync, l, [s.nextKey], s.opacity l⟩ :
          VectorCacheItem)] :=
    hpres.1.trans f2
  have hvl2 : (run env (watchVectorLayer env l s) t).vectorLayers =
      s.vectorLayers ++ [l] :=
    hpres.2.trans f1
  have hlen : s.vectorCache.length = s.vectorLayers.length := by
    rw [← hal, List.length_map]
  have hfi : (run env (watchVectorLayer env l s) t).vectorLayers.findIdx?
      (· == l) = some s.vectorLayers.length := by
    rw [hvl2]
    exact findIdx?_append_self hnew
  have hit : (run env (watchVectorLayer env l s) t).vectorCache[
      s.vectorLayers.length]? =
      some (⟨s.nextData, s.nextSync, l, [s.nextKey], s.opacity l⟩ :
        VectorCacheItem) := by
    rw [hvc2, ← hlen]
    exact List.getElem?_concat_length _ _
  obtain ⟨-, -, -, -, -, -, -, -, -, -, -, f12⟩ :=
    unwatchVectorLayer_fields hfi hit
  rw [congrFun f12 l, Function.update_same]

theorem claim_C5_witness :
    (unwatchVectorLayer 2 (run cEnv (watchVectorLayer cEnv 2 cTwoGoogle)
      [Ev.setVisible 2 false, Ev.setVisible 2 true,
       Ev.postrenderEvent])).opacity 2 = mkRat 4 5 :=
  (claim_C5_saved_opacity_restored cEnv 2 cTwoGoogle
    [Ev.setVisible 2 false, Ev.setVisible 2 true, Ev.postrenderEvent]
    (by decide) (by decide) (by decide) (by decide)).2

/-- C6: the per-entry activation routine activates the entry's synchronizer
and sets the layer's opacity to 0 exactly when the layer is visible and the
state machine is Active; in every other case it leaves the state untouched;
and it is idempotent on the observable state.  Concretely (vector layer 2
watched with opacity 4/5 while Active): its opacity is 0 and its
synchronizer active; hiding it restores opacity 4/5 with the synchronizer
inactive; showing it again gives opacity 0 with the synchronizer active. -/
theorem claim_C6_per_entry_activation :
    (∀ (it : VectorCacheItem) (s : HeraldState),
      (s.visible it.layer = true → s.googleMapsIsActive = true →
        (activateVectorLayerCacheItem it s).syncActive it.herald = true ∧
        (activateVectorLayerCacheItem it s).opacity it.layer = 0) ∧
      (¬(s.visible it.layer = true ∧ s.googleMapsIsActive = true) →
        activateVectorLayerCacheItem it s = s) ∧
      eraseLog (activateVectorLayerCacheItem it
          (activateVectorLayerCacheItem it s)) =
        eraseLog (activateVectorLayerCacheItem it s)) ∧
    (cWithVector.opacity 2 = 0 ∧
     cWithVector.syncActive 0 = true ∧
     (step cEnv cWithVector (Ev.setVisible 2 false)).opacity 2 = mkRat 4 5 ∧
     (step cEnv cWithVector (Ev.setVisible 2 false)).syncActive 0 = false ∧
     (step cEnv (step cEnv cWithVector (Ev.setVisible 2 false))
       (Ev.setVisible 2 true)).opacity 2 = 0 ∧
     (step cEnv (step cEnv cWithVector (Ev.setVisible 2 false))
       (Ev.setVisible 2 true)).syncActive 0 = true ∧
     (step cEnv (step cEnv cWithVector (Ev.setVisible 2 false))
       (Ev.setVisible 2 true)).googleMapsIsActive = true) := by
  constructor
  · intro it s
    refine ⟨?_, ?_, ?_⟩
    · intro h1 h2
      unfold activateVectorLayerCacheItem
      rw [if_pos (by simp [h1, h2])]
      exact ⟨Function.update_same _ _ _, Function.update_same _ _ _⟩
    · intro hn
      unfold activateVectorLayerCacheItem
      rw [if_neg]
      simp only [Bool.and_eq_true]
      exact hn
    · by_cases hcond : (s.visible it.layer && s.googleMapsIsActive) = true
      · simp [activateVectorLayerCacheItem, hcond, eraseLog,
          Function.update_idem]
      · have hno : activateVectorLayerCacheItem it s = s := by
          unfold activateVectorLayerCacheItem
          rw [if_neg hcond]
        rw [hno, hno]
  · exact ⟨by decide, by decide, by decide, by decide, by decide, by decide,
      by decide⟩

theorem claim_C6_witness :
    (activateVectorLayerCacheItem
      (⟨0, 0, 2, [1], mkRat 4 5⟩ : VectorCacheItem)
      cTwoGoogle).syncActive 0 = true ∧
    (activateVectorLayerCacheItem
      (⟨0, 0, 2, [1], mkRat 4 5⟩ : VectorCacheItem)
      cTwoGoogle).opacity 2 = 0 :=
  (claim_C6_per_entry_activation.1
    (⟨0, 0, 2, [1], mkRat 4 5⟩ : VectorCacheItem) cTwoGoogle).1
    (by decide) (by decide)

theorem toggleGoogleMaps_active_false (env : LayerEnv) {s : HeraldState}
    (ha : s.googleMapsIsActive = false)
    (hnr : s.ol3mapIsRenderered = false ∨ s.centerDefined = false) :
    (toggleGoogleMaps env s).googleMapsIsActive = false := by
  cases hw : toggleWinner env s with
  | none => rw [toggleGoogleMaps_of_none hw, deactivateGoogleMaps_active]
  | some w =>
    rw [toggleGoogleMaps_active_of_winner hw, ha]
    rcases hnr with h | h <;> simp [h]

theorem watchVectorLayer_noop (env : LayerEnv) (l : Nat) (s : HeraldState)
    (hsrc : env.hasSource l = false) : watchVectorLayer env l s = s := by
  unfold watchVectorLayer
  rw [if_pos (by simp [hsrc])]

theorem watchVectorLayer_active (env : LayerEnv) (l : Nat) (s : HeraldState) :
    (watchVectorLayer env l s).googleMapsIsActive = s.googleMapsIsActive := by
  cases hsrc : env.hasSource l with
  | false => rw [watchVectorLayer_noop env l s hsrc]
  | true => exact (watchVectorLayer_fields env l s hsrc).2.2.2.2.2.2.1

theorem watchLayer_active_false (env : LayerEnv) (l : Nat) {s : HeraldState}
    (ha : s.googleMapsIsActive = false)
    (hnr : s.ol3mapIsRenderered = false ∨ s.centerDefined = false) :
    (watchLayer env l s).googleMapsIsActive = false := by
  unfold watchLayer
  split
  · unfold watchGoogleLayer
    exact toggleGoogleMaps_active_false env ha hnr
  · split
    · rw [watchVectorLayer_active]
      exact ha
    · exact ha

theorem watchLayer_gate (env : LayerEnv) (l : Nat) (s : HeraldState) :
    (watchLayer env l s).ol3mapIsRenderered = s.ol3mapIsRenderered ∧
    (watchLayer env l s).centerDefined = s.centerDefined ∧
    (watchLayer env l s).waitingCenter = s.waitingCenter ∧
    (watchLayer env l s).waitingPostrender = s.waitingPostrender := by
  unfold watchLayer
  split
  · unfold watchGoogleLayer
    exact ⟨(frame_toggleGoogleMaps env _).rendered,
      (frame_toggleGoogleMaps env _).center,
      (frame_toggleGoogleMaps env _).waitC,
      (frame_toggleGoogleMaps env _).waitP⟩
  · split
    · cases hsrc : env.hasSource l with
      | false => rw [watchVectorLayer_noop env l s hsrc]
                 exact ⟨rfl, rfl, rfl, rfl⟩
      | true =>
        obtain ⟨-, -, -, -, -, -, -, g8, g9, g10, g11⟩ :=
          watchVectorLayer_fields env l s hsrc
        exact ⟨g8, g9, g10, g11⟩
    · exact ⟨rfl, rfl, rfl, rfl⟩

theorem step_addLayer_core (env : LayerEnv) (l : Nat) (s : HeraldState)
    (hk : env.kind l = LayerKind.google) :
    (step env s (Ev.addLayer l)).mapLayers = s.mapLayers ++ [l] ∧
    (step env s (Ev.addLayer l)).visible = s.visible ∧
    (step env s (Ev.addLayer l)).googleLayers = s.googleLayers ++ [l] := by
  unfold step watchLayer
  dsimp only
  rw [if_pos hk]
  unfold watchGoogleLayer
  exact ⟨(frame_toggleGoogleMaps env _).mapLayers,
    (frame_toggleGoogleMaps env _).visible,
    (frame_toggleGoogleMaps env _).googleLayers⟩

theorem step_addLayer_gate (env : LayerEnv) (l : Nat) (s : HeraldState) :
    (step env s (Ev.addLayer l)).ol3mapIsRenderered = s.ol3mapIsRenderered ∧
    (step env s (Ev.addLayer l)).centerDefined = s.centerDefined ∧
    (step env s (Ev.addLayer l)).waitingCenter = s.waitingCenter ∧
    (step env s (Ev.addLayer l)).waitingPostrender = s.waitingPostrender := by
  unfold step
  exact watchLayer_gate env l _

theorem step_addLayer_active_false (env : LayerEnv) (l : Nat)
    {s : HeraldState} (ha : s.googleMapsIsActive = false)
    (hnr : s.ol3mapIsRenderered = false ∨ s.centerDefined = false) :
    (step env s (Ev.addLayer l)).googleMapsIsActive = false := by
  unfold step
  exact watchLayer_active_false env l ha hnr

theorem toggleWinner_concat (env : LayerEnv) {x : HeraldState}
    {ml : List Nat} {l : Nat} (hm : x.mapLayers = ml ++ [l])
    (hp : winnerPred env x l = true) : toggleWinner env x = some l := by
  unfold toggleWinner
  rw [hm, List.reverse_append, List.reverse_singleton, List.singleton_append]
  exact List.find?_cons_of_pos _ hp

theorem step_centerEvent_eq (env : LayerEnv) {s : HeraldState}
    (hw : s.waitingCenter = true) :
    step env s Ev.centerEvent = toggleGoogleMaps env
      { s with centerDefined := true, waitingCenter := false,
               waitingPostrender := true } := by
  unfold step
  dsimp only
  rw [if_pos hw]

theorem step_postrenderEvent_eq (env : LayerEnv) {s : HeraldState}
    (hw : s.waitingPostrender = true) :
    step env s Ev.postrenderEvent = toggleGoogleMaps env
      { s with waitingPostrender := false, ol3mapIsRenderered := true } := by
  unfold step
  dsimp only
  rw [if_pos hw]

theorem step_postrenderEvent_noop (env : LayerEnv) {s : HeraldState}
    (hw : s.waitingPostrender = false) :
    step env s Ev.postrenderEvent = s := by
  unfold step
  dsimp only
  rw [if_neg (by simp [hw])]

theorem gated_aux2 (env : LayerEnv) (l : Nat) {S : HeraldState}
    (hp : winnerPred env S l = true) (hm : ∃ pre, S.mapLayers = pre ++ [l])
    (hc : S.centerDefined = true) (hwp : S.waitingPostrender = true) :
    (step env S Ev.postrenderEvent).googleMapsIsActive = true := by
  obtain ⟨pre, hm⟩ := hm
  rw [step_postrenderEvent_eq env hwp]
  have hw3 : toggleWinner env
      { S with waitingPostrender := false, ol3mapIsRenderered := true } =
        some l :=
    toggleWinner_concat env (hm : _ = pre ++ [l]) hp
  rw [toggleGoogleMaps_active_of_winner hw3]
  simp [hc]

theorem gated_aux (env : LayerEnv) (l : Nat) {S1 : HeraldState}
    (hp : winnerPred env S1 l = true)
    (hm : ∃ pre, S1.mapLayers = pre ++ [l])
    (ha : S1.googleMapsIsActive = false)
    (hr : S1.ol3mapIsRenderered = false)
    (hwc : S1.waitingCenter = true) :
    (step env S1 Ev.centerEvent).googleMapsIsActive = false ∧
    (step env (step env S1 Ev.centerEvent)
      Ev.postrenderEvent).googleMapsIsActive = true ∧
    step env (step env (step env S1 Ev.centerEvent) Ev.postrenderEvent)
        Ev.postrenderEvent =
      step env (step env S1 Ev.centerEvent) Ev.postrenderEvent := by
  obtain ⟨pre, hm⟩ := hm
  have e2 := step_centerEvent_eq env hwc
  have F2 := frame_toggleGoogleMaps env
    { S1 with centerDefined := true, waitingCenter := false,
              waitingPostrender := true }
  have ha2 : (step env S1 Ev.centerEvent).googleMapsIsActive = false := by
    rw [e2]
    exact toggleGoogleMaps_active_false env ha (Or.inl hr)
  have hm2 : (step env S1 Ev.centerEvent).mapLayers = pre ++ [l] := by
    rw [e2]
    exact F2.mapLayers.trans hm
  have hp2 : winnerPred env (step env S1 Ev.centerEvent) l = true := by
    rw [e2, winnerPred_frame F2]
    exact hp
  have hc2 : (step env S1 Ev.centerEvent).centerDefined = true := by
    rw [e2]
    exact F2.center
  have hwp2 : (step env S1 Ev.centerEvent).waitingPostrender = true := by
    rw [e2]
    exact F2.waitP
  refine ⟨ha2, gated_aux2 env l hp2 ⟨pre, hm2⟩ hc2 hwp2, ?_⟩
  have e3 := step_postrenderEvent_eq env hwp2
  have F3 := frame_toggleGoogleMaps env
    { step env S1 Ev.centerEvent with
      waitingPostrender := false, ol3mapIsRenderered := true }
  have hwp3 : (step env (step env S1 Ev.centerEvent)
      Ev.postrenderEvent).waitingPostrender = false := by
    rw [e3]
    exact F3.waitP
  exact step_postrenderEvent_noop env hwp3

/-- C3 counterexample: start with no center defined, watch a visible google
layer, then let the first post-render signal arrive before the first
center-defined signal.  Both one-shot signals have fired and the toggle
decision still finds a winner, yet the state machine is Inactive: the
post-render listener is only registered inside the center handler, so a
post-render arriving first is unobserved and no transition happens when the
later (center) signal arrives. -/
theorem claim_C3_counterexample :
    (run cEnv cInit
      [Ev.addLayer 0, Ev.postrenderEvent, Ev.centerEvent]).googleMapsIsActive
      = false ∧
    (toggleWinner cEnv (run cEnv cInit
      [Ev.addLayer 0, Ev.postrenderEvent, Ev.centerEvent])).isSome = true :=
  ⟨by decide, by decide⟩

/-- C3 (amended): first activation is gated by the two one-shot signals, but
they are not independent: the post-render listener is registered only by the
center handler (or at construction when a center already exists), so a
post-render that precedes the first center-defined signal is unobserved.
When the center signal comes first (or the center is initially defined),
activation happens exactly once, on the last-arriving signal: the state is
still Inactive after the earlier signal, becomes Active on the later one,
and a further post-render signal is a no-op that changes nothing.  When the
post-render signal comes first, the state stays Inactive after both signals
and activation happens on the next post-render. -/
theorem claim_C3_gated_first_activation (env : LayerEnv) (l : Nat)
    (ml : List Nat) (vis : Nat → Bool) (op : Nat → ℚ)
    (hk : env.kind l = LayerKind.google) (hv : vis l = true) :
    (run env (mkInitial ml vis op false)
      [Ev.addLayer l, Ev.centerEvent]).googleMapsIsActive = false ∧
    (run env (mkInitial ml vis op false)
      [Ev.addLayer l, Ev.centerEvent, Ev.postrenderEvent]).googleMapsIsActive
      = true ∧
    step env (run env (mkInitial ml vis op false)
        [Ev.addLayer l, Ev.centerEvent, Ev.postrenderEvent])
        Ev.postrenderEvent =
      run env (mkInitial ml vis op false)
        [Ev.addLayer l, Ev.centerEvent, Ev.postrenderEvent] ∧
    (run env (mkInitial ml vis op true)
      [Ev.addLayer l]).googleMapsIsActive = false ∧
    (run env (mkInitial ml vis op true)
      [Ev.addLayer l, Ev.postrenderEvent]).googleMapsIsActive = true ∧
    (run env (mkInitial ml vis op false)
      [Ev.addLayer l, Ev.postrenderEvent, Ev.centerEvent]).googleMapsIsActive
      = false ∧
    (run env (mkInitial ml vis op false)
      [Ev.addLayer l, Ev.postrenderEvent, Ev.centerEvent,
       Ev.postrenderEvent]).googleMapsIsActive = true := by
  obtain ⟨c1, c2, c3⟩ := step_addLayer_core env l (mkInitial ml vis op false) hk
  obtain ⟨g1, g2, g3, g4⟩ := step_addLayer_gate env l (mkInitial ml vis op false)
  have ha1 : (step env (mkInitial ml vis op false)
      (Ev.addLayer l)).googleMapsIsActive = false :=
    step_addLayer_active_false env l rfl (Or.inl rfl)
  have hr1 : (step env (mkInitial ml vis op false)
      (Ev.addLayer l)).ol3mapIsRenderered = false := g1
  have hwc1 : (step env (mkInitial ml vis op false)
      (Ev.addLayer l)).waitingCenter = true := g3
  have hwp1 : (step env (mkInitial ml vis op false)
      (Ev.addLayer l)).waitingPostrender = false := g4
  have hm1 : (step env (mkInitial ml vis op false)
      (Ev.addLayer l)).mapLayers = ml ++ [l] := c1
  have hp1 : winnerPred env (step env (mkInitial ml vis op false)
      (Ev.addLayer l)) l = true := by
    unfold winnerPred
    rw [congrFun c2 l, c3]
    simp [mkInitial, hk, hv]
  obtain ⟨a1, a2, a3⟩ := gated_aux env l hp1 ⟨ml, hm1⟩ ha1 hr1 hwc1
  have hnp : step env (step env (mkInitial ml vis op false) (Ev.addLayer l))
      Ev.postrenderEvent =
      step env (mkInitial ml vis op false) (Ev.addLayer l) :=
    step_postrenderEvent_noop env hwp1
  obtain ⟨c1b, c2b, c3b⟩ :=
    step_addLayer_core env l (mkInitial ml vis op true) hk
  obtain ⟨g1b, g2b, g3b, g4b⟩ :=
    step_addLayer_gate env l (mkInitial ml vis op true)
  have ha1b : (step env (mkInitial ml vis op true)
      (Ev.addLayer l)).googleMapsIsActive = false :=
    step_addLayer_active_false env l rfl (Or.inl rfl)
  have hp1b : winnerPred env (step env (mkInitial ml vis op true)
      (Ev.addLayer l)) l = true := by
    unfold winnerPred
    rw [congrFun c2b l, c3b]
    simp [mkInitial, hk, hv]
  have hc1b : (step env (mkInitial ml vis op true)
      (Ev.addLayer l)).centerDefined = true := g2b
  have hwp1b : (step env (mkInitial ml vis op true)
      (Ev.addLayer l)).waitingPostrender = true := g4b
  refine ⟨a1, a2, a3, ha1b, ?_, ?_, ?_⟩
  · exact gated_aux2 env l hp1b ⟨ml, c1b⟩ hc1b hwp1b
  · show (step env (step env (step env (mkInitial ml vis op false)
      (Ev.addLayer l)) Ev.postrenderEvent) Ev.centerEvent).googleMapsIsActive
      = false
    rw [hnp]
    exact a1
  · show (step env (step env (step env (step env (mkInitial ml vis op false)
      (Ev.addLayer l)) Ev.postrenderEvent) Ev.centerEvent)
      Ev.postrenderEvent).googleMapsIsActive = true
    rw [hnp]
    exact a2

theorem claim_C3_witness :
    (run cEnv (mkInitial [] (fun _ => true) (fun _ => mkRat 4 5) false)
      [Ev.addLayer 0, Ev.centerEvent]).googleMapsIsActive = false ∧
    (run cEnv (mkInitial [] (fun _ => true) (fun _ => mkRat 4 5) false)
      [Ev.addLayer 0, Ev.centerEvent,
       Ev.postrenderEvent]).googleMapsIsActive = true ∧
    step cEnv (run cEnv (mkInitial [] (fun _ => true) (fun _ => mkRat 4 5)
        false) [Ev.addLayer 0, Ev.centerEvent, Ev.postrenderEvent])
        Ev.postrenderEvent =
      run cEnv (mkInitial [] (fun _ => true) (fun _ => mkRat 4 5) false)
        [Ev.addLayer 0, Ev.centerEvent, Ev.postrenderEvent] ∧
    (run cEnv (mkInitial [] (fun _ => true) (fun _ => mkRat 4 5) true)
      [Ev.addLayer 0]).googleMapsIsActive = false ∧
    (run cEnv (mkInitial [] (fun _ => true) (fun _ => mkRat 4 5) true)
      [Ev.addLayer 0, Ev.postrenderEvent]).googleMapsIsActive = true ∧
    (run cEnv (mkInitial [] (fun _ => true) (fun _ => mkRat 4 5) false)
      [Ev.addLayer 0, Ev.postrenderEvent,
       Ev.centerEvent]).googleMapsIsActive = false ∧
    (run cEnv (mkInitial [] (fun _ => true) (fun _ => mkRat 4 5) false)
      [Ev.addLayer 0, Ev.postrenderEvent, Ev.centerEvent,
       Ev.postrenderEvent]).googleMapsIsActive = true :=
  claim_C3_gated_first_activation cEnv 0 [] (fun _ => true)
    (fun _ => mkRat 4 5) (by decide) (by decide)

end LayersHerald
